import Mathlib

/-!
Shallow embedding of the pytest email reporter in
`src/utilities/email_reporter.py` (class `PytestEmailReporter`), together with
proofs of the specified properties of its aggregation, classification and
reporting logic.

Python strings are modelled as Lean `String`; the string operations the
reporter uses (`str.lower`, `str.split`, `str.strip`, `in`-substring tests,
`os.path.basename`, the parameter-stripping regex) are implemented here by
structural recursion over the character list, so that every definition can be
evaluated by the kernel on concrete inputs.  Python dicts (which preserve
insertion order) are modelled as association lists.  Mutating methods of the
reporter become functions from the reporter state to a new state; fallible
code returns `Except`.
-/

namespace EmailReporter

/-! ### String primitives (models of the Python `str` operations used) -/

/-- Model of Python `str.lower` (ASCII case folding, as used on failure
messages).  `Char.toLower` lowers exactly the ASCII uppercase letters. -/
def pyLower (s : String) : String := ⟨s.data.map Char.toLower⟩

/-- The test `containsSubL pat hay` decides whether `pat` occurs as a contiguous
infix of `hay`: the model of Python's `pat in hay` on strings. -/
def containsSubL (pat : List Char) : List Char → Bool
  | [] => pat.isEmpty
  | c :: rest => pat.isPrefixOf (c :: rest) || containsSubL pat rest

/-- Model of Python `sub in s` (substring containment). -/
def containsSub (s sub : String) : Bool := containsSubL sub.data s.data

/-- Worker for `pySplit`: scans the character list, cutting at each
non-overlapping occurrence of the (non-empty) separator, left to right.
`fuel` bounds the recursion; `pySplit` supplies enough fuel for the scan to
complete, so the `fuel = 0` branch is never taken on those calls. -/
def splitOnL (sep : List Char) : Nat → List Char → List Char → List (List Char)
  | 0, cs, acc => [acc.reverse ++ cs]
  | _ + 1, [], acc => [acc.reverse]
  | fuel + 1, c :: rest, acc =>
    if sep.isPrefixOf (c :: rest) then
      acc.reverse :: splitOnL sep fuel ((c :: rest).drop sep.length) []
    else
      splitOnL sep fuel rest (c :: acc)

/-- Model of Python `s.split(sep)` for a non-empty separator `sep`:
e.g. `"a::b".split("::") = ["a","b"]`, `"".split("::") = [""]`. -/
def pySplit (s sep : String) : List String :=
  (splitOnL sep.data (s.data.length + 1) s.data []).map fun cs => ⟨cs⟩

/-- ASCII whitespace, as stripped by Python `str.strip()`. -/
def isPySpace (c : Char) : Bool :=
  c = ' ' || c = '\t' || c = '\n' || c = '\r' || c = '\x0b' || c = '\x0c'

/-- Model of Python `str.strip()` (whitespace removed from both ends). -/
def pyStrip (s : String) : String :=
  ⟨((s.data.dropWhile isPySpace).reverse.dropWhile isPySpace).reverse⟩

/-- Model of `os.path.basename` on POSIX: the part after the last `/`. -/
def pyBasename (p : String) : String := (pySplit p "/").getLastD ""

/-! ### Association lists (models of Python dicts, insertion-ordered) -/

/-- Lookup `lookupD m k`: the count stored under `k`, `0` when absent
(Python `m.get(k, 0)`). -/
def lookupD (m : List (String × Nat)) (k : String) : Nat := (m.lookup k).getD 0

/-- Increment `bump m k`: increment the count under `k`, appending a fresh entry
`(k, 1)` when `k` is absent.  This is the net effect of the reporter's
`m[k] = m.get(k, 0) + 1` and of its `try: m[k] += 1 except KeyError:
m.setdefault(k, 0); m[k] += 1`, with Python's insertion-order semantics. -/
def bump (m : List (String × Nat)) (k : String) : List (String × Nat) :=
  match m with
  | [] => [(k, 1)]
  | (k', v) :: rest => if k' = k then (k', v + 1) :: rest else (k', v) :: bump rest k

/-- Sum of all counts in an association list (Python `sum(m.values())`). -/
def sumVals (m : List (String × Nat)) : Nat := (m.map Prod.snd).sum

/-! ### `classify_error` (email_reporter.py lines 39–55) -/

/-- Source `PytestEmailReporter.classify_error`: keyword classification of a failure
message, first match wins. -/
def classify_error (msg : String) : String :=
  if msg.data.isEmpty then "UnknownError"
  else
    let text := pyLower msg
    if containsSub text "assert" then "AssertionError"
    else if containsSub text "timeout" then "TimeoutError"
    else if containsSub text "not found" || containsSub text "locator" then "LocatorError"
    else if containsSub text "invalid" || containsSub text "data" then "TestDataError"
    else if containsSub text "connection" then "ConnectionError"
    else if containsSub text "permission" then "PermissionError"
    else "UnknownError"

/-- The failure classifier exactly as the spec's words describe it (§4.1
step 2): ordered, case-insensitive, first match wins, `UnknownError` for an
empty detail or when nothing matches.  (An empty detail matches no pattern,
so it falls through to `UnknownError`.) -/
def classifySpec (detail : String) : String :=
  let text := pyLower detail
  if containsSub text "assert" then "AssertionError"
  else if containsSub text "timeout" then "TimeoutError"
  else if containsSub text "not found" || containsSub text "locator" then "LocatorError"
  else if containsSub text "invalid" || containsSub text "data" then "TestDataError"
  else if containsSub text "connection" then "ConnectionError"
  else if containsSub text "permission" then "PermissionError"
  else "UnknownError"

/-! ### `_normalize_feature` (email_reporter.py lines 58–92) -/

/-- The helper `strip_params` inside `_normalize_feature`:
`re.sub(r"\[.*\]$", "", s)`.  For strings without newline characters (pytest
nodeids), the regex matches iff the string ends in `]` and contains a `[`
before it, and the substitution removes everything from the first `[` on. -/
def strip_params (s : String) : String :=
  if s.data.getLast? = some ']' ∧ s.data.contains '[' then
    ⟨s.data.takeWhile (fun c => c ≠ '[')⟩
  else s

/-- Source `PytestEmailReporter._normalize_feature`: build the feature key
`Class::method` (or `file::method`, or the bare nodeid) from a nodeid.
The `len(parts) >= 3` / `== 2` / fallback branches of the source become the
three match arms. -/
def _normalize_feature (nodeid : String) : String :=
  let parts := pySplit nodeid "::"
  match parts with
  | _ :: p1 :: p2 :: _ => strip_params p1 ++ "::" ++ strip_params p2
  | [p0, p1] => pyBasename p0 ++ "::" ++ strip_params p1
  | _ => strip_params nodeid

/-! ### Reporter state and the `pytest_runtest_logreport` hook -/

/-- One phase report delivered by pytest to `pytest_runtest_logreport`.
`longrepr` holds `str(report.longrepr)`, the text the classifier sees. -/
structure Report where
  when : String
  outcome : String
  nodeid : String
  longrepr : String
deriving Repr, DecidableEq

/-- One entry of `self.test_executions` (email_reporter.py lines 120–125). -/
structure ExecRecord where
  nodeid : String
  feature : String
  status : String
  reason : String
deriving Repr, DecidableEq

/-- The mutable state of a `PytestEmailReporter` (fields set in `__init__`,
email_reporter.py lines 19–36).  `start_time`/`end_time` stand for the
`datetime` values, rendered via their string form; `none` models Python
`None`. -/
structure ReporterState where
  stats : List (String × Nat)
  failure_reasons : List (String × Nat)
  test_executions : List ExecRecord
  start_time : Option String
  end_time : Option String
  project_name : String
deriving Repr, DecidableEq

/-- The state `__init__` builds: counters for the three known statuses at
zero, no failure reasons, no executions.  `project_name` models the
`PROJECT_NAME` default. -/
def initState : ReporterState :=
  { stats := [("passed", 0), ("failed", 0), ("skipped", 0)]
    failure_reasons := []
    test_executions := []
    start_time := none
    end_time := none
    project_name := "Pytest-OpenAI-Ragas" }

/-- Source `PytestEmailReporter.pytest_runtest_logreport` (lines 95–125): ignore all
phases but `"call"`; bump the per-status counter (the `try/except KeyError`
makes this total for unknown statuses); classify and count the failure reason
when the outcome is `"failed"`; append the raw execution record. -/
def pytest_runtest_logreport (st : ReporterState) (report : Report) : ReporterState :=
  if report.when ≠ "call" then st
  else
    let stats := bump st.stats report.outcome
    let feature := _normalize_feature report.nodeid
    let fr :=
      if report.outcome = "failed" then
        (bump st.failure_reasons (classify_error report.longrepr),
         classify_error report.longrepr)
      else (st.failure_reasons, "-")
    { st with
      stats := stats
      failure_reasons := fr.1
      test_executions := st.test_executions ++
        [{ nodeid := report.nodeid, feature := feature,
           status := report.outcome, reason := fr.2 }] }

/-- Folding a whole run of pytest phase reports through the hook, starting
from the freshly constructed reporter. -/
def runEvents (events : List Report) : ReporterState :=
  events.foldl pytest_runtest_logreport initState

/-- Spec §8 example classifications, evaluated on the embedded classifier. -/
theorem classify_error_spec_examples :
    classify_error "AssertionError: expected 5 got 3" = "AssertionError"
  ∧ classify_error "Connection refused" = "ConnectionError"
  ∧ classify_error "" = "UnknownError" := by decide

/-- Spec §8 example feature derivations, evaluated on the embedded
normalizer. -/
theorem normalize_feature_spec_examples :
    _normalize_feature "tests/test_x.py::TestA::test_b[param1]" = "TestA::test_b"
  ∧ _normalize_feature "tests/test_x.py::test_standalone[param]" = "test_x.py::test_standalone"
  ∧ _normalize_feature "test_solo" = "test_solo" := by decide

/-! ### `_aggregate_by_feature` (email_reporter.py lines 137–164) -/

/-- The per-feature dict the `defaultdict` factory creates:
`{"passed": 0, "failed": 0, "skipped": 0, "total": 0}`. -/
def initFeatCounts : List (String × Nat) :=
  [("passed", 0), ("failed", 0), ("skipped", 0), ("total", 0)]

/-- One loop iteration of `_aggregate_by_feature` on the `defaultdict`:
`feat_counts[f][st] = feat_counts[f].get(st, 0) + 1; feat_counts[f]["total"] += 1`,
creating the entry for a new feature `f` at the end (insertion order). -/
def featUpdate (fc : List (String × List (String × Nat))) (f status : String) :
    List (String × List (String × Nat)) :=
  match fc with
  | [] => [(f, bump (bump initFeatCounts status) "total")]
  | (f', c) :: rest =>
    if f' = f then (f', bump (bump c status) "total") :: rest
    else (f', c) :: featUpdate rest f status

/-- The `feat_counts` accumulator after the first loop of
`_aggregate_by_feature`. -/
def feat_counts (recs : List ExecRecord) : List (String × List (String × Nat)) :=
  recs.foldl (fun fc r => featUpdate fc r.feature r.status) []

/-- Model of `round(x, 2)` on a percentage value: the model of Python's 2-decimal
rounding, over exact rationals. -/
def round2 (x : ℚ) : ℚ := (round (x * 100) : ℤ) / 100

/-- One value of the `feature_summary` mapping (spec §3 `FeatureSummary`). -/
structure FeatureSummary where
  passed : Nat
  failed : Nat
  skipped : Nat
  total : Nat
  pass_rate : ℚ
deriving Repr, DecidableEq

/-- Second loop of `_aggregate_by_feature`: read the four counters back with
`get(_, 0)` and compute the pass rate
(`round((passed / total * 100), 2) if total else 0.0`). -/
def summarize (c : List (String × Nat)) : FeatureSummary :=
  let total := lookupD c "total"
  let passed := lookupD c "passed"
  { passed := passed
    failed := lookupD c "failed"
    skipped := lookupD c "skipped"
    total := total
    pass_rate := if total ≠ 0 then round2 ((passed : ℚ) / (total : ℚ) * 100) else 0 }

/-- Source `PytestEmailReporter._aggregate_by_feature` as a function of the recorded
executions: the insertion-ordered mapping feature → FeatureSummary. -/
def _aggregate_by_feature (recs : List ExecRecord) : List (String × FeatureSummary) :=
  (feat_counts recs).map fun p => (p.1, summarize p.2)

/-! ### `generate_html` (email_reporter.py lines 167–304) -/

/-- Lexicographic (code-point) order on strings as a Bool comparator: the
order `sorted()` uses on the feature keys. -/
def charLe : List Char → List Char → Bool
  | [], _ => true
  | _ :: _, [] => false
  | a :: as, b :: bs => if a = b then charLe as bs else decide (a.toNat < b.toNat)

/-- String comparator for `sorted(feature_summary.keys())`. -/
def strLe (a b : String) : Bool := charLe a.data b.data

/-- Local `passed`, line 173. -/
def html_passed (st : ReporterState) : Nat := lookupD st.stats "passed"

/-- Local `failed`, line 174. -/
def html_failed (st : ReporterState) : Nat := lookupD st.stats "failed"

/-- Local `skipped`, line 175. -/
def html_skipped (st : ReporterState) : Nat := lookupD st.stats "skipped"

/-- Local `total = passed + failed + skipped`, line 176. -/
def overall_total (st : ReporterState) : Nat :=
  html_passed st + html_failed st + html_skipped st

/-- Local `overall_pass_rate = round((passed / total * 100), 2) if total else 0.0`,
line 177. -/
def overall_pass_rate (st : ReporterState) : ℚ :=
  if overall_total st ≠ 0 then
    round2 ((html_passed st : ℚ) / (overall_total st : ℚ) * 100)
  else 0

/-- Local `pass_pct`, line 180. -/
def pass_pct (st : ReporterState) : ℚ :=
  if overall_total st ≠ 0 then (html_passed st : ℚ) / (overall_total st : ℚ) * 100 else 0

/-- Local `fail_pct`, line 181. -/
def fail_pct (st : ReporterState) : ℚ :=
  if overall_total st ≠ 0 then (html_failed st : ℚ) / (overall_total st : ℚ) * 100 else 0

/-- One `<tr>` of the feature summary table (lines 198–207). -/
def feature_row_html (feature : String) (s : FeatureSummary) : String :=
  let p := s.passed
  let f := s.failed
  let k := s.skipped
  let t := s.total
  let r := s.pass_rate
  s!"
            <tr>
                <td style=\"text-align:left;padding-left:10px;\">{feature}</td>
                <td>{p}</td>
                <td>{f}</td>
                <td>{k}</td>
                <td>{t}</td>
                <td>{r}%</td>
            </tr>
            "

/-- Local `feature_rows` (lines 195–207): rows for the features sorted
lexicographically.  The lookup never misses (the keys are the map's own
keys); the `""` arm is unreachable. -/
def feature_rows_html (st : ReporterState) : String :=
  let fs := _aggregate_by_feature st.test_executions
  ((fs.map Prod.fst).mergeSort strLe).foldl
    (fun acc f =>
      acc ++ match fs.lookup f with
             | some s => feature_row_html f s
             | none => "")
    ""

/-- The `{feature_rows or '<tr>...No tests executed...</tr>'}` insertion at
line 288: the placeholder row replaces an empty `feature_rows` string. -/
def feature_rows_block (st : ReporterState) : String :=
  let r := feature_rows_html st
  if r.data.isEmpty then "<tr><td colspan=\"6\">No tests executed</td></tr>" else r

/-- Local `failure_rows` (lines 210–215): one row per failure class sorted by count
descending (`sorted(..., key=lambda x: -x[1])`, stable), or the no-failures
placeholder row. -/
def failure_rows_html (st : ReporterState) : String :=
  if st.failure_reasons.isEmpty then
    "<tr><td colspan=\x272\x27>No Failures 🎉</td></tr>"
  else
    (st.failure_reasons.mergeSort (fun a b => decide (b.2 ≤ a.2))).foldl
      (fun acc p =>
        match p with
        | (reason, count) => acc ++ s!"<tr><td>{reason}</td><td><b>{count}</b></td></tr>")
      ""

/-- Source `PytestEmailReporter.generate_html` (lines 167–304): the full email HTML.
Literal braces of the CSS are written `\x7b`/`\x7d`; numeric values are
rendered through `toString` of the exact model values. -/
def generate_html (st : ReporterState) : String :=
  let passed := html_passed st
  let failed := html_failed st
  let skipped := html_skipped st
  let total := overall_total st
  let overallRate := overall_pass_rate st
  let ppct := pass_pct st
  let pfpct := pass_pct st + fail_pct st
  let pie_chart := s!"
            background: conic-gradient(
                #2e7d32 0% {ppct}%,
                #c62828 {ppct}% {pfpct}%,
                #ef6c00 {pfpct}% 100%
            );
        "
  let feature_rows := feature_rows_block st
  let failure_rows := failure_rows_html st
  let pn := st.project_name
  let stime := (st.start_time.map toString).getD "None"
  let etime := (st.end_time.map toString).getD "None"
  s!"
        <html>
        <head>
            <style>
                body \x7b
                    font-family: Arial, Helvetica, sans-serif;
                    padding: 18px;
                \x7d
                h2 \x7b text-align: center; margin-bottom: 6px; \x7d
                .pie \x7b
                    width: 120px;
                    height: 120px;
                    border-radius: 50%;
                    margin: 10px auto 20px;
                    {pie_chart}
                \x7d
                table \x7b
                    width: 95%;
                    margin: 10px auto;
                    border-collapse: collapse;
                    font-size: 13px;
                \x7d
                th, td \x7b
                    border: 1px solid #ddd;
                    padding: 8px;
                    text-align: center;
                \x7d
                th \x7b
                    background-color: #222;
                    color: #fff;
                    font-weight: 600;
                \x7d
                tr:nth-child(even) \x7b background: #fafafa; \x7d
                .small-table \x7b width: 50%; margin: 10px auto; \x7d
                .left-col \x7b text-align: left; padding-left: 12px; \x7d
            </style>
        </head>
        <body>
            <h2>📊 Pytest Execution Summary</h2>
            <div class=\"pie\"></div>

            <table>
                <tr>
                    <th>Project Name</th>
                    <th>Total Tests</th>
                    <th>Passed</th>
                    <th>Failed</th>
                    <th>Skipped</th>
                    <th>Pass Rate (%)</th>
                </tr>
                <tr>
                    <td>{pn}</td>
                    <td>{total}</td>
                    <td>{passed}</td>
                    <td>{failed}</td>
                    <td>{skipped}</td>
                    <td>{overallRate}%</td>
                </tr>
            </table>

            <h3 style=\"text-align:center;\">Feature Summary (Class :: Test Method)</h3>
            <table>
                <tr>
                    <th style=\"text-align:left;padding-left:10px;\">Feature</th>
                    <th>Pass</th>
                    <th>Fail</th>
                    <th>Skip</th>
                    <th>Total</th>
                    <th>Pass Rate</th>
                </tr>
                {feature_rows}
            </table>

            <h3 style=\"text-align:center;\">Failure Breakdown</h3>
            <table class=\"small-table\">
                <tr><th>Failure Type</th><th>Count</th></tr>
                {failure_rows}
            </table>

            <h3 style=\"text-align:center;\">Execution Time</h3>
            <table class=\"small-table\">
                <tr><td>Start Time</td><td>{stime}</td></tr>
                <tr><td>End Time</td><td>{etime}</td></tr>
            </table>
        </body>
        </html>
        "

/-- Method view of `generate_html`: as a method on the reporter state: the body reads
`self.stats`, `self.failure_reasons`, `self.test_executions`,
`self.start_time`, `self.end_time`, `self.project_name` and assigns only
local variables, so the explicit-state translation returns the input state
unchanged. -/
def generate_html_m (st : ReporterState) : String × ReporterState :=
  (generate_html st, st)

/-! ### `send_email` (email_reporter.py lines 307–353) -/

/-- The environment variables `send_email` reads; `none` models an unset
variable (Python `os.getenv` returning `None`). -/
structure SmtpEnv where
  smtp_host : Option String
  smtp_port : Option String
  email_sender : Option String
  email_receiver_list : Option String
deriving Repr, DecidableEq

/-- A line emitted through the logging collaborator. -/
inductive LogMsg where
  | info (msg : String)
  | warning (msg : String)
  | error (msg : String)
deriving Repr, DecidableEq

/-- The message handed to `server.sendmail` when a send happens. -/
structure EmailMsg where
  sender : String
  receivers : List String
  subject : String
  body : String
  attached : Bool
deriving Repr, DecidableEq

/-- Digit run of a Python integer literal (underscore grouping not
modelled): `none` unless the characters are one-or-more decimal digits. -/
def pyIntDigitsAux : List Char → Nat → Option Nat
  | [], acc => some acc
  | c :: rest, acc =>
    if c.isDigit then pyIntDigitsAux rest (acc * 10 + (c.toNat - 48)) else none

/-- Nonempty all-digit parse. -/
def pyIntDigits : List Char → Option Nat
  | [] => none
  | cs => pyIntDigitsAux cs 0

/-- Model of Python `int(s)`: surrounding whitespace stripped, optional
sign, decimal digits; `none` models the `ValueError` it raises otherwise. -/
def pyInt (s : String) : Option Int :=
  match (pyStrip s).data with
  | '+' :: rest => (pyIntDigits rest).map Int.ofNat
  | '-' :: rest => (pyIntDigits rest).map fun n => -(n : Int)
  | cs => (pyIntDigits cs).map Int.ofNat

/-- Python falsiness of an `os.getenv` result: unset or empty. -/
def falsyOpt (o : Option String) : Bool :=
  match o with
  | none => true
  | some s => s.data.isEmpty

/-- The receiver list (lines 312–316):
`[r.strip() for r in os.getenv("EMAIL_RECEIVER_LIST", "").split(",") if r.strip()]`. -/
def parse_receivers (v : String) : List String :=
  ((pySplit v ",").map pyStrip).filter fun r => !r.data.isEmpty

/-- The guard at line 318: `if not smtp_host or not sender or not receivers`. -/
def config_missing (env : SmtpEnv) : Bool :=
  falsyOpt env.smtp_host || falsyOpt env.email_sender ||
    (parse_receivers (env.email_receiver_list.getD "")).isEmpty

/-- Source `PytestEmailReporter.send_email`.  The transport collaborators are
oracles: `attachRead` is the attachment file read (inner `try` at lines
333–340), `conn` the `smtplib.SMTP(...)` connection, `tls` the
`server.starttls()` call, `trans` the `server.sendmail(...)` call; `.error e`
means that call raised with message `e`.  The overall result is `.error`
exactly when an exception propagates out of `send_email` to its caller:
the only such site is `int(os.getenv("SMTP_PORT", "25"))` at line 309, which
runs before the configuration guard and is wrapped in no `try`. -/
def send_email (st : ReporterState) (env : SmtpEnv) (reportExists : Bool)
    (attachRead : Except String Unit) (conn : Except String Unit)
    (tls : Except String Unit) (trans : Except String Unit) :
    Except String (List LogMsg × Option EmailMsg) :=
  match pyInt (env.smtp_port.getD "25") with
  | none => .error "ValueError: invalid literal for int() with base 10"
  | some _port =>
    if config_missing env then
      .ok ([.error "❌ SMTP configuration missing in .env"], none)
    else
      let receivers := parse_receivers (env.email_receiver_list.getD "")
      let html := generate_html st
      let attachLogs : List LogMsg :=
        if reportExists then
          match attachRead with
          | .ok _ => []
          | .error e => [.warning s!"⚠ Could not attach pytest-html report: {e}"]
        else []
      let attached := reportExists && (match attachRead with | .ok _ => true | .error _ => false)
      match conn with
      | .error e => .ok (attachLogs ++ [.error s!"❌ Failed to send email: {e}"], none)
      | .ok _ =>
        let tlsLogs : List LogMsg :=
          match tls with
          | .ok _ => []
          | .error _ => [.warning "⚠ TLS not supported by SMTP server or not needed"]
        match trans with
        | .error e =>
          .ok (attachLogs ++ tlsLogs ++ [.error s!"❌ Failed to send email: {e}"], none)
        | .ok _ =>
          .ok (attachLogs ++ tlsLogs ++ [.info "📧 Email report sent successfully!"],
               some { sender := env.email_sender.getD ""
                      receivers := receivers
                      subject := "📢 Pytest Execution Summary"
                      body := html
                      attached := attached })

/-! ### Lemmas about the dict model -/

theorem lookupD_nil (k : String) : lookupD [] k = 0 := rfl

theorem lookupD_cons (k' : String) (v : Nat) (rest : List (String × Nat)) (k : String) :
    lookupD ((k', v) :: rest) k = if k = k' then v else lookupD rest k := by
  simp only [lookupD, List.lookup]
  by_cases h : k = k'
  · simp [h]
  · have hb : (k == k') = false := by simp [h]
    simp [hb, h]

theorem lookupD_bump (m : List (String × Nat)) (k k' : String) :
    lookupD (bump m k) k' = lookupD m k' + (if k' = k then 1 else 0) := by
  induction m with
  | nil =>
    simp only [bump, lookupD_cons, lookupD_nil]
    by_cases h : k' = k <;> simp [h]
  | cons hd tl ih =>
    obtain ⟨k₀, v₀⟩ := hd
    by_cases h₀ : k₀ = k
    · subst h₀
      simp only [bump, if_pos rfl, lookupD_cons]
      by_cases h : k' = k₀ <;> simp [h, lookupD_cons]
    · simp only [bump, if_neg h₀, lookupD_cons]
      by_cases h : k' = k₀
      · subst h
        have hk : ¬ k' = k := fun hkk => h₀ hkk
        simp [hk]
      · simp [h, ih]

theorem sumVals_nil : sumVals [] = 0 := rfl

theorem sumVals_bump (m : List (String × Nat)) (k : String) :
    sumVals (bump m k) = sumVals m + 1 := by
  induction m with
  | nil => simp [bump, sumVals]
  | cons hd tl ih =>
    obtain ⟨k₀, v₀⟩ := hd
    simp only [bump]
    by_cases h₀ : k₀ = k
    · simp [h₀, sumVals]
      omega
    · simp [h₀, sumVals] at ih ⊢
      omega

/-- Invariant preservation along a whole run of phase reports: if `P` holds
initially and every hook call on an event satisfying `Q` preserves it, it
holds at the end. -/
theorem foldl_logreport_invariant (P : ReporterState → Prop) (Q : Report → Prop)
    (step : ∀ st e, Q e → P st → P (pytest_runtest_logreport st e)) :
    ∀ (l : List Report), (∀ e ∈ l, Q e) → ∀ st, P st → P (l.foldl pytest_runtest_logreport st)
  | [], _, _, h => h
  | e :: rest, hQ, st, h =>
    foldl_logreport_invariant P Q step rest (fun x hx => hQ x (List.mem_cons_of_mem e hx)) _
      (step st e (hQ e (List.mem_cons_self e rest)) h)

/-- The three stats counters built by `__init__` all read as zero, and so
does any other label (absent key, default 0). -/
theorem lookupD_initStats (lbl : String) : lookupD initState.stats lbl = 0 := by
  simp only [initState, lookupD_cons, lookupD_nil]
  split_ifs <;> rfl

/-- Spec §8 scenario fragment: a single failed call with a timeout detail
yields the failure breakdown `{TimeoutError: 1}`. -/
theorem runEvents_timeout_example :
    (runEvents [⟨"call", "failed", "tests/test_x.py::TestA::test_b[p]", "timeout waiting"⟩]).failure_reasons
      = [("TimeoutError", 1)] := by decide

/-- Unfolding of the hook on a non-`call` phase report: nothing happens. -/
theorem logreport_noncall_eq (st : ReporterState) (e : Report) (h : e.when ≠ "call") :
    pytest_runtest_logreport st e = st := by
  simp [pytest_runtest_logreport, h]

/-- Unfolding of the hook on a `call` phase report. -/
theorem logreport_call_eq (st : ReporterState) (e : Report) (h : e.when = "call") :
    pytest_runtest_logreport st e =
      { st with
        stats := bump st.stats e.outcome
        failure_reasons :=
          if e.outcome = "failed" then bump st.failure_reasons (classify_error e.longrepr)
          else st.failure_reasons
        test_executions := st.test_executions ++
          [{ nodeid := e.nodeid, feature := _normalize_feature e.nodeid,
             status := e.outcome,
             reason := if e.outcome = "failed" then classify_error e.longrepr else "-" }] } := by
  simp only [pytest_runtest_logreport, h, ne_eq, not_true_eq_false, if_false]
  by_cases hf : e.outcome = "failed" <;> simp [hf]

/-- C10: the run-wide per-status counters never diverge from the recorded
outcome sequence.  After any sequence of phase reports, for every status
label (including unrecognized ones) the counter equals the number of
recorded executions carrying that status. -/
theorem stats_counter_matches_outcome_sequence (events : List Report) (lbl : String) :
    lookupD (runEvents events).stats lbl
      = (runEvents events).test_executions.countP (fun r => r.status == lbl) := by
  have main := foldl_logreport_invariant
    (P := fun st => ∀ l, lookupD st.stats l = st.test_executions.countP (fun r => r.status == l))
    (Q := fun _ => True)
    (fun st e _ hP => by
      by_cases hw : e.when = "call"
      · intro l
        rw [logreport_call_eq st e hw]
        simp only [List.countP_append, lookupD_bump, hP l]
        simp only [List.countP_cons, List.countP_nil, Nat.zero_add]
        by_cases hl : l = e.outcome
        · simp [hl]
        · have hne : ¬ e.outcome = l := fun hh => hl hh.symm
          have : (e.outcome == l) = false := by simp [hne]
          simp [hl, this]
      · intro l
        rw [logreport_noncall_eq st e hw]
        exact hP l)
    events (fun _ _ => trivial) initState
    (fun l => lookupD_initStats l)
  exact main lbl

/-- C3: the failure-classification counts always sum to the number of
recorded executions whose status is `"failed"`. -/
theorem failure_class_counts_sum_to_failed_count (events : List Report) :
    sumVals (runEvents events).failure_reasons
      = (runEvents events).test_executions.countP (fun r => r.status == "failed") := by
  exact foldl_logreport_invariant
    (P := fun st => sumVals st.failure_reasons
        = st.test_executions.countP (fun r => r.status == "failed"))
    (Q := fun _ => True)
    (fun st e _ hP => by
      by_cases hw : e.when = "call"
      · rw [logreport_call_eq st e hw]
        by_cases hf : e.outcome = "failed"
        · simp [hf, sumVals_bump, List.countP_append, hP]
        · have : (e.outcome == "failed") = false := by simp [hf]
          simp [hf, List.countP_append, hP, this]
      · rw [logreport_noncall_eq st e hw]
        exact hP)
    events (fun _ _ => trivial) initState (by simp [initState, sumVals, runEvents])

/-- C9: a setup or teardown phase report (any phase other than `"call"`)
leaves the whole reporter state — counters, failure-reason map and outcome
sequence — exactly as it was. -/
theorem noncall_phase_leaves_state_unchanged (st : ReporterState) (e : Report)
    (h : e.when ≠ "call") :
    pytest_runtest_logreport st e = st
  ∧ (pytest_runtest_logreport st e).stats = st.stats
  ∧ (pytest_runtest_logreport st e).failure_reasons = st.failure_reasons
  ∧ (pytest_runtest_logreport st e).test_executions = st.test_executions := by
  have h0 : pytest_runtest_logreport st e = st := by
    simp [pytest_runtest_logreport, h]
  exact ⟨h0, by rw [h0], by rw [h0], by rw [h0]⟩

/-- Witness for C9 at a concrete setup-phase report. -/
theorem noncall_phase_leaves_state_unchanged_witness :
    pytest_runtest_logreport initState ⟨"setup", "passed", "tests/test_x.py::TestA::test_b", ""⟩
        = initState
  ∧ (pytest_runtest_logreport initState ⟨"setup", "passed", "tests/test_x.py::TestA::test_b", ""⟩).stats
        = initState.stats
  ∧ (pytest_runtest_logreport initState ⟨"setup", "passed", "tests/test_x.py::TestA::test_b", ""⟩).failure_reasons
        = initState.failure_reasons
  ∧ (pytest_runtest_logreport initState ⟨"setup", "passed", "tests/test_x.py::TestA::test_b", ""⟩).test_executions
        = initState.test_executions :=
  noncall_phase_leaves_state_unchanged initState _ (by decide)

/-- C6: the hook never fails on an unrecognized status: the status is
counted under its own label in the run-wide counters (the `except KeyError`
path creates the counter) and the execution record is still appended, so no
event is dropped. -/
theorem unknown_status_counted_not_dropped (st : ReporterState) (e : Report)
    (hw : e.when = "call")
    (hs : e.outcome ≠ "passed" ∧ e.outcome ≠ "failed" ∧ e.outcome ≠ "skipped") :
    lookupD (pytest_runtest_logreport st e).stats e.outcome
        = lookupD st.stats e.outcome + 1
  ∧ (pytest_runtest_logreport st e).test_executions
        = st.test_executions ++
          [{ nodeid := e.nodeid, feature := _normalize_feature e.nodeid,
             status := e.outcome, reason := "-" }] := by
  rw [logreport_call_eq st e hw]
  refine ⟨?_, ?_⟩
  · simp [lookupD_bump]
  · simp [hs.2.1]

/-- Witness for C6 at a concrete `"error"`-status report. -/
theorem unknown_status_counted_not_dropped_witness :
    lookupD (pytest_runtest_logreport initState ⟨"call", "error", "tests/test_x.py::TestA::test_b", ""⟩).stats "error"
        = lookupD initState.stats "error" + 1
  ∧ (pytest_runtest_logreport initState ⟨"call", "error", "tests/test_x.py::TestA::test_b", ""⟩).test_executions
        = initState.test_executions ++
          [{ nodeid := "tests/test_x.py::TestA::test_b",
             feature := _normalize_feature "tests/test_x.py::TestA::test_b",
             status := "error", reason := "-" }] :=
  unknown_status_counted_not_dropped initState _ rfl (by decide)

/-! ### Aggregation lemmas, C1 and C2 -/

/-- The three statuses of the spec's data model (§3 `TestOutcome.status`),
the declared input domain of `recordOutcome`. -/
def knownStatus (s : String) : Prop :=
  s = "passed" ∨ s = "failed" ∨ s = "skipped"

instance (s : String) : Decidable (knownStatus s) := by
  unfold knownStatus; infer_instance

/-- Sum of the `"total"` counters over a `feat_counts` accumulator. -/
def fcTotals (fc : List (String × List (String × Nat))) : Nat :=
  (fc.map fun p => lookupD p.2 "total").sum

theorem lookupD_initFeatCounts (k : String) : lookupD initFeatCounts k = 0 := by
  simp only [initFeatCounts, lookupD_cons, lookupD_nil]
  split_ifs <;> rfl

theorem featUpdate_totals (fc : List (String × List (String × Nat))) (f status : String)
    (h : status ≠ "total") :
    fcTotals (featUpdate fc f status) = fcTotals fc + 1 := by
  have hts : ¬ ("total" : String) = status := fun hh => h hh.symm
  induction fc with
  | nil =>
    simp [featUpdate, fcTotals, lookupD_bump, hts, lookupD_initFeatCounts]
  | cons hd tl ih =>
    obtain ⟨f', c⟩ := hd
    by_cases hf : f' = f
    · simp [featUpdate, hf, fcTotals, lookupD_bump, hts]
      omega
    · simp only [featUpdate, if_neg hf, fcTotals, List.map_cons, List.sum_cons] at ih ⊢
      omega

/-- Every record with a status other than the literal `"total"` adds exactly
one to the grand total of the per-feature `"total"` counters. -/
theorem feat_counts_totals_aux (recs : List ExecRecord) :
    ∀ fc, (∀ r ∈ recs, r.status ≠ "total") →
      fcTotals (recs.foldl (fun fc r => featUpdate fc r.feature r.status) fc)
        = fcTotals fc + recs.length := by
  induction recs with
  | nil => intro fc _; simp
  | cons r rest ih =>
    intro fc h
    simp only [List.foldl_cons, List.length_cons]
    rw [ih _ (fun x hx => h x (List.mem_cons_of_mem r hx)),
        featUpdate_totals _ _ _ (h r (List.mem_cons_self r rest))]
    omega

/-- The totals of the feature summaries are the `"total"` counters of
`feat_counts`. -/
theorem aggregate_totals_eq_fcTotals (recs : List ExecRecord) :
    ((_aggregate_by_feature recs).map fun p => p.2.total).sum = fcTotals (feat_counts recs) := by
  simp only [_aggregate_by_feature, fcTotals, List.map_map]
  rfl

/-- Statuses recorded in the execution sequence all come from outcomes of
the run's phase reports. -/
theorem execution_status_known (events : List Report)
    (h : ∀ e ∈ events, knownStatus e.outcome) :
    ∀ r ∈ (runEvents events).test_executions, knownStatus r.status := by
  exact foldl_logreport_invariant
    (P := fun st => ∀ r ∈ st.test_executions, knownStatus r.status)
    (Q := fun e => knownStatus e.outcome)
    (fun st e hQ hP => by
      by_cases hw : e.when = "call"
      · rw [logreport_call_eq st e hw]
        intro r hr
        simp only [List.mem_append, List.mem_singleton] at hr
        rcases hr with hr | hr
        · exact hP r hr
        · subst hr; exact hQ
      · rw [logreport_noncall_eq st e hw]; exact hP)
    events h initState (by simp [initState])

/-- C1: for every run built from `recordOutcome` calls (statuses in the
operation's declared domain), the feature totals of `aggregateByFeature`
sum to the number of records in the ordered outcome sequence. -/
theorem feature_totals_sum_to_record_count (events : List Report)
    (h : ∀ e ∈ events, knownStatus e.outcome) :
    ((_aggregate_by_feature (runEvents events).test_executions).map fun p => p.2.total).sum
      = (runEvents events).test_executions.length := by
  rw [aggregate_totals_eq_fcTotals]
  have hk := execution_status_known events h
  have := feat_counts_totals_aux (runEvents events).test_executions []
    (fun r hr => by
      rcases hk r hr with h1 | h1 | h1 <;> simp [h1])
  simpa [feat_counts, fcTotals] using this

/-- Witness for C1 on the spec's §8 scenario (feature A: 2 passed, 1 failed
with a timeout detail; feature B: 2 passed). -/
theorem feature_totals_sum_to_record_count_witness :
    (∀ e ∈ [(⟨"call", "passed", "tests/test_x.py::TestA::test_a[p0]", ""⟩ : Report),
            ⟨"call", "passed", "tests/test_x.py::TestA::test_a[p1]", ""⟩,
            ⟨"call", "failed", "tests/test_x.py::TestA::test_a[p2]", "timeout waiting"⟩,
            ⟨"call", "passed", "tests/test_x.py::TestB::test_b[p0]", ""⟩,
            ⟨"call", "passed", "tests/test_x.py::TestB::test_b[p1]", ""⟩],
        knownStatus e.outcome)
  ∧ ((_aggregate_by_feature
        (runEvents [(⟨"call", "passed", "tests/test_x.py::TestA::test_a[p0]", ""⟩ : Report),
                    ⟨"call", "passed", "tests/test_x.py::TestA::test_a[p1]", ""⟩,
                    ⟨"call", "failed", "tests/test_x.py::TestA::test_a[p2]", "timeout waiting"⟩,
                    ⟨"call", "passed", "tests/test_x.py::TestB::test_b[p0]", ""⟩,
                    ⟨"call", "passed", "tests/test_x.py::TestB::test_b[p1]", ""⟩]).test_executions).map
        fun p => p.2.total).sum
      = (runEvents [(⟨"call", "passed", "tests/test_x.py::TestA::test_a[p0]", ""⟩ : Report),
                    ⟨"call", "passed", "tests/test_x.py::TestA::test_a[p1]", ""⟩,
                    ⟨"call", "failed", "tests/test_x.py::TestA::test_a[p2]", "timeout waiting"⟩,
                    ⟨"call", "passed", "tests/test_x.py::TestB::test_b[p0]", ""⟩,
                    ⟨"call", "passed", "tests/test_x.py::TestB::test_b[p1]", ""⟩]).test_executions.length :=
  ⟨by decide, feature_totals_sum_to_record_count _ (by decide)⟩

/-- Balance `total = passed + failed + skipped` for one per-feature counter dict. -/
def balanced (c : List (String × Nat)) : Prop :=
  lookupD c "total" = lookupD c "passed" + lookupD c "failed" + lookupD c "skipped"

theorem balanced_bump (c : List (String × Nat)) (status : String) (h : knownStatus status)
    (hb : balanced c) : balanced (bump (bump c status) "total") := by
  have n1 : ¬ ("passed" : String) = "failed" := by decide
  have n2 : ¬ ("passed" : String) = "skipped" := by decide
  have n3 : ¬ ("passed" : String) = "total" := by decide
  have n4 : ¬ ("failed" : String) = "passed" := by decide
  have n5 : ¬ ("failed" : String) = "skipped" := by decide
  have n6 : ¬ ("failed" : String) = "total" := by decide
  have n7 : ¬ ("skipped" : String) = "passed" := by decide
  have n8 : ¬ ("skipped" : String) = "failed" := by decide
  have n9 : ¬ ("skipped" : String) = "total" := by decide
  have n10 : ¬ ("total" : String) = "passed" := by decide
  have n11 : ¬ ("total" : String) = "failed" := by decide
  have n12 : ¬ ("total" : String) = "skipped" := by decide
  rcases h with h | h | h <;> subst h <;>
    · simp only [balanced, lookupD_bump] at hb ⊢
      simp only [if_pos rfl, if_neg n1, if_neg n2, if_neg n3, if_neg n4, if_neg n5,
        if_neg n6, if_neg n7, if_neg n8, if_neg n9, if_neg n10, if_neg n11, if_neg n12]
      omega

theorem balanced_initFeatCounts : balanced initFeatCounts := by
  simp [balanced, lookupD_initFeatCounts]

theorem featUpdate_balanced (fc : List (String × List (String × Nat))) (f status : String)
    (h : knownStatus status) (hfc : ∀ p ∈ fc, balanced p.2) :
    ∀ p ∈ featUpdate fc f status, balanced p.2 := by
  induction fc with
  | nil =>
    intro p hp
    simp only [featUpdate, List.mem_singleton] at hp
    subst hp
    exact balanced_bump _ _ h balanced_initFeatCounts
  | cons hd tl ih =>
    obtain ⟨f', c⟩ := hd
    by_cases hf : f' = f
    · intro p hp
      simp only [featUpdate, if_pos hf, List.mem_cons] at hp
      rcases hp with hp | hp
      · subst hp
        exact balanced_bump _ _ h (hfc (f', c) (List.mem_cons_self _ _))
      · exact hfc p (List.mem_cons_of_mem _ hp)
    · intro p hp
      simp only [featUpdate, if_neg hf, List.mem_cons] at hp
      rcases hp with hp | hp
      · subst hp; exact hfc (f', c) (List.mem_cons_self _ _)
      · exact ih (fun q hq => hfc q (List.mem_cons_of_mem _ hq)) p hp

theorem feat_counts_balanced_aux (recs : List ExecRecord) :
    ∀ fc, (∀ r ∈ recs, knownStatus r.status) → (∀ p ∈ fc, balanced p.2) →
      ∀ p ∈ recs.foldl (fun fc r => featUpdate fc r.feature r.status) fc, balanced p.2 := by
  induction recs with
  | nil => intro fc _ hfc; simpa using hfc
  | cons r rest ih =>
    intro fc h hfc
    simp only [List.foldl_cons]
    exact ih _ (fun x hx => h x (List.mem_cons_of_mem r hx))
      (featUpdate_balanced fc r.feature r.status (h r (List.mem_cons_self r rest)) hfc)

/-- C2: every feature summary of `aggregateByFeature`, after any run of
`recordOutcome` calls with statuses in the declared domain, has
`total = passed + failed + skipped` and
`pass_rate = round(passed/total*100, 2)` (`0` when `total = 0`). -/
theorem feature_summary_fields_correct (events : List Report)
    (h : ∀ e ∈ events, knownStatus e.outcome) (f : String) (s : FeatureSummary)
    (hmem : (f, s) ∈ _aggregate_by_feature (runEvents events).test_executions) :
    s.total = s.passed + s.failed + s.skipped
  ∧ s.pass_rate = (if s.total = 0 then 0
      else round2 ((s.passed : ℚ) / (s.total : ℚ) * 100)) := by
  obtain ⟨p, hc, hfs⟩ := List.mem_map.1 hmem
  obtain ⟨f', c⟩ := p
  rw [Prod.mk.injEq] at hfs
  obtain ⟨rfl, rfl⟩ := hfs
  have hbal : balanced c := by
    have hk := execution_status_known events h
    exact feat_counts_balanced_aux (runEvents events).test_executions []
      (fun r hr => hk r hr) (by simp) (f', c) hc
  constructor
  · exact hbal
  · show (if lookupD c "total" ≠ 0
        then round2 ((lookupD c "passed" : ℚ) / (lookupD c "total" : ℚ) * 100) else 0)
      = (if lookupD c "total" = 0 then 0
        else round2 (((summarize c).passed : ℚ) / ((summarize c).total : ℚ) * 100))
    by_cases h0 : lookupD c "total" = 0
    · simp [h0]
    · simp only [ne_eq, h0, not_false_eq_true, if_true, if_neg h0]
      rfl

/-- Witness for C2: on the §8 scenario, feature `TestA::test_a` aggregates
to 2 passed / 1 failed / 0 skipped, total 3, pass rate `round2 (2/3·100)`
(= 66.67). -/
theorem feature_summary_fields_correct_witness :
    (∀ e ∈ [(⟨"call", "passed", "tests/test_x.py::TestA::test_a[p0]", ""⟩ : Report),
            ⟨"call", "passed", "tests/test_x.py::TestA::test_a[p1]", ""⟩,
            ⟨"call", "failed", "tests/test_x.py::TestA::test_a[p2]", "timeout waiting"⟩],
        knownStatus e.outcome)
  ∧ (FeatureSummary.mk 2 1 0 3 (round2 ((2 : ℚ) / (3 : ℚ) * 100))).total
      = (FeatureSummary.mk 2 1 0 3 (round2 ((2 : ℚ) / (3 : ℚ) * 100))).passed
        + (FeatureSummary.mk 2 1 0 3 (round2 ((2 : ℚ) / (3 : ℚ) * 100))).failed
        + (FeatureSummary.mk 2 1 0 3 (round2 ((2 : ℚ) / (3 : ℚ) * 100))).skipped
  ∧ (FeatureSummary.mk 2 1 0 3 (round2 ((2 : ℚ) / (3 : ℚ) * 100))).pass_rate
      = (if (FeatureSummary.mk 2 1 0 3 (round2 ((2 : ℚ) / (3 : ℚ) * 100))).total = 0 then 0
        else round2 (((FeatureSummary.mk 2 1 0 3 (round2 ((2 : ℚ) / (3 : ℚ) * 100))).passed : ℚ)
          / ((FeatureSummary.mk 2 1 0 3 (round2 ((2 : ℚ) / (3 : ℚ) * 100))).total : ℚ) * 100)) := by
  have hmem : ("TestA::test_a",
      (FeatureSummary.mk 2 1 0 3 (round2 ((2 : ℚ) / (3 : ℚ) * 100))))
      ∈ _aggregate_by_feature
          (runEvents [(⟨"call", "passed", "tests/test_x.py::TestA::test_a[p0]", ""⟩ : Report),
                      ⟨"call", "passed", "tests/test_x.py::TestA::test_a[p1]", ""⟩,
                      ⟨"call", "failed", "tests/test_x.py::TestA::test_a[p2]", "timeout waiting"⟩]).test_executions := by
    have h1 : feat_counts
        (runEvents [(⟨"call", "passed", "tests/test_x.py::TestA::test_a[p0]", ""⟩ : Report),
                    ⟨"call", "passed", "tests/test_x.py::TestA::test_a[p1]", ""⟩,
                    ⟨"call", "failed", "tests/test_x.py::TestA::test_a[p2]", "timeout waiting"⟩]).test_executions
        = [("TestA::test_a", [("passed", 2), ("failed", 1), ("skipped", 0), ("total", 3)])] := by
      decide
    simp only [_aggregate_by_feature, h1, List.map_cons, List.map_nil, List.mem_singleton]
    have hsum : summarize [("passed", 2), ("failed", 1), ("skipped", 0), ("total", 3)]
        = FeatureSummary.mk 2 1 0 3 (round2 ((2 : ℚ) / (3 : ℚ) * 100)) := by
      have hl1 : lookupD [("passed", 2), ("failed", 1), ("skipped", 0), ("total", 3)] "total" = 3 := by decide
      have hl2 : lookupD [("passed", 2), ("failed", 1), ("skipped", 0), ("total", 3)] "passed" = 2 := by decide
      have hl3 : lookupD [("passed", 2), ("failed", 1), ("skipped", 0), ("total", 3)] "failed" = 1 := by decide
      have hl4 : lookupD [("passed", 2), ("failed", 1), ("skipped", 0), ("total", 3)] "skipped" = 0 := by decide
      simp only [summarize, hl1, hl2, hl3, hl4]
      norm_num
    rw [hsum]
  refine ⟨by decide, ?_, ?_⟩
  · exact (feature_summary_fields_correct _ (by decide) _ _ hmem).1
  · exact (feature_summary_fields_correct _ (by decide) _ _ hmem).2

/-! ### C4, C5: classifier and feature normalizer -/

/-- C4: the source classifier agrees with the spec's priority-ordered,
case-insensitive, first-match-wins substring classification on every failure
detail string, including the empty-detail → `UnknownError` case. -/
theorem classify_error_matches_spec_priority (msg : String) :
    classify_error msg = classifySpec msg := by
  cases hd : msg.data with
  | nil =>
    have hempty : msg = "" := String.ext (by rw [hd])
    subst hempty
    decide
  | cons c cs =>
    have he : msg.data.isEmpty = false := by rw [hd]; rfl
    simp only [classify_error, he, Bool.false_eq_true, if_false]
    rfl

/-- C5: the feature key derivation, case by case on the `::`-split of the
identifier, exactly as the spec states it. -/
theorem normalize_feature_cases (nodeid : String) :
    (∀ p0 p1 p2 rest, pySplit nodeid "::" = p0 :: p1 :: p2 :: rest →
        _normalize_feature nodeid = strip_params p1 ++ "::" ++ strip_params p2)
  ∧ (∀ p0 p1, pySplit nodeid "::" = [p0, p1] →
        _normalize_feature nodeid = pyBasename p0 ++ "::" ++ strip_params p1)
  ∧ (∀ p0, pySplit nodeid "::" = [p0] →
        _normalize_feature nodeid = strip_params nodeid) := by
  refine ⟨?_, ?_, ?_⟩
  · intro p0 p1 p2 rest h
    simp only [_normalize_feature, h]
  · intro p0 p1 h
    simp only [_normalize_feature, h]
  · intro p0 h
    simp only [_normalize_feature, h]

/-- Witness for C5 on the spec's example identifier
`tests/test_x.py::TestA::test_b[param1]`, whose feature is
`TestA::test_b`. -/
theorem normalize_feature_cases_witness :
    pySplit "tests/test_x.py::TestA::test_b[param1]" "::"
        = ["tests/test_x.py", "TestA", "test_b[param1]"]
  ∧ _normalize_feature "tests/test_x.py::TestA::test_b[param1]"
        = strip_params "TestA" ++ "::" ++ strip_params "test_b[param1]"
  ∧ _normalize_feature "tests/test_x.py::TestA::test_b[param1]" = "TestA::test_b" :=
  ⟨by decide,
   (normalize_feature_cases "tests/test_x.py::TestA::test_b[param1]").1
     "tests/test_x.py" "TestA" "test_b[param1]" [] (by decide),
   by decide⟩

/-! ### C7: report rendering is a pure, total read -/

/-- C7: `generate_html` is a pure read: as a method it leaves every state
field (in particular the counters, the failure-reason map and the outcome
sequence) unchanged, and a second call on the resulting state yields the
identical output; on the freshly initialised state (zero recorded tests) it
renders zero totals, pass rate 0, and the two placeholder rows rather than
failing. -/
theorem render_summary_pure_idempotent_zero_safe (st : ReporterState) :
    (generate_html_m st).2 = st
  ∧ (generate_html_m ((generate_html_m st).2)).1 = (generate_html_m st).1
  ∧ (generate_html_m st).2.stats = st.stats
  ∧ (generate_html_m st).2.failure_reasons = st.failure_reasons
  ∧ (generate_html_m st).2.test_executions = st.test_executions
  ∧ overall_total initState = 0
  ∧ overall_pass_rate initState = 0
  ∧ feature_rows_block initState = "<tr><td colspan=\"6\">No tests executed</td></tr>"
  ∧ failure_rows_html initState = "<tr><td colspan=\x272\x27>No Failures 🎉</td></tr>" := by
  refine ⟨rfl, rfl, rfl, rfl, rfl, rfl, ?_, ?_, rfl⟩
  · simp [overall_pass_rate, overall_total, html_passed, html_failed, html_skipped,
      lookupD_initStats]
  · simp [feature_rows_block, feature_rows_html, _aggregate_by_feature, feat_counts,
      initState, List.mergeSort_nil]

/-! ### C8: `send_email` failure policy -/

/-- C8 (amended): provided the configured SMTP port value (default `"25"`)
parses as an integer, `send_email` never propagates an exception: it always
returns; on missing host/sender/recipients it only logs the configuration
error and sends nothing; a sent message's recipient list is the
comma-split, whitespace-trimmed, empty-entry-discarding parse of the
configured value; and a connection or send failure is absorbed into an error
log entry with no message sent. -/
theorem send_email_no_raise_given_intlike_port
    (st : ReporterState) (env : SmtpEnv) (reportExists : Bool)
    (attachRead conn tls trans : Except String Unit) (p : Int)
    (hp : pyInt (env.smtp_port.getD "25") = some p) :
    (∃ out, send_email st env reportExists attachRead conn tls trans = .ok out)
  ∧ (config_missing env = true →
      send_email st env reportExists attachRead conn tls trans
        = .ok ([.error "❌ SMTP configuration missing in .env"], none))
  ∧ (∀ logs msg,
      send_email st env reportExists attachRead conn tls trans = .ok (logs, some msg) →
      msg.receivers = parse_receivers (env.email_receiver_list.getD ""))
  ∧ (∀ e, conn = .error e → config_missing env = false →
      ∃ logs, send_email st env reportExists attachRead conn tls trans = .ok (logs, none)
        ∧ LogMsg.error s!"❌ Failed to send email: {e}" ∈ logs)
  ∧ (∀ e, conn = .ok () → trans = .error e → config_missing env = false →
      ∃ logs, send_email st env reportExists attachRead conn tls trans = .ok (logs, none)
        ∧ LogMsg.error s!"❌ Failed to send email: {e}" ∈ logs) := by
  by_cases hcfg : config_missing env = true
  · have hout : send_email st env reportExists attachRead conn tls trans
        = .ok ([.error "❌ SMTP configuration missing in .env"], none) := by
      simp only [send_email, hp, hcfg, if_true]
    refine ⟨⟨_, hout⟩, fun _ => hout, ?_, ?_, ?_⟩
    · intro logs msg hmsg
      rw [hout] at hmsg
      simp at hmsg
    · intro e _ hfalse
      rw [hcfg] at hfalse
      exact absurd hfalse (by simp)
    · intro e _ _ hfalse
      rw [hcfg] at hfalse
      exact absurd hfalse (by simp)
  · have hcfg' : config_missing env = false := by
      simpa using hcfg
    have hbody : send_email st env reportExists attachRead conn tls trans
        = (let receivers := parse_receivers (env.email_receiver_list.getD "")
           let html := generate_html st
           let attachLogs : List LogMsg :=
             if reportExists then
               match attachRead with
               | .ok _ => []
               | .error e => [.warning s!"⚠ Could not attach pytest-html report: {e}"]
             else []
           let attached := reportExists &&
             (match attachRead with | .ok _ => true | .error _ => false)
           match conn with
           | .error e => .ok (attachLogs ++ [.error s!"❌ Failed to send email: {e}"], none)
           | .ok _ =>
             let tlsLogs : List LogMsg :=
               match tls with
               | .ok _ => []
               | .error _ => [.warning "⚠ TLS not supported by SMTP server or not needed"]
             match trans with
             | .error e =>
               .ok (attachLogs ++ tlsLogs ++ [.error s!"❌ Failed to send email: {e}"], none)
             | .ok _ =>
               .ok (attachLogs ++ tlsLogs ++ [.info "📧 Email report sent successfully!"],
                    some { sender := env.email_sender.getD ""
                           receivers := receivers
                           subject := "📢 Pytest Execution Summary"
                           body := html
                           attached := attached })) := by
      simp only [send_email, hp, hcfg', Bool.false_eq_true, if_false]
    refine ⟨?_, ?_, ?_, ?_, ?_⟩
    · rw [hbody]
      rcases conn with e | u
      · exact ⟨_, rfl⟩
      · rcases trans with e | u'
        · exact ⟨_, rfl⟩
        · exact ⟨_, rfl⟩
    · intro hc
      rw [hc] at hcfg'
      simp at hcfg'
    · intro logs msg hmsg
      rw [hbody] at hmsg
      rcases conn with e | u
      · simp at hmsg
      · rcases trans with e | u'
        · simp at hmsg
        · simp only [Except.ok.injEq, Prod.mk.injEq, Option.some.injEq] at hmsg
          obtain ⟨-, h2⟩ := hmsg
          subst h2
          rfl
    · intro e hc _
      subst hc
      rw [hbody]
      exact ⟨_, rfl, by simp⟩
    · intro e hc ht _
      subst hc; subst ht
      rw [hbody]
      exact ⟨_, rfl, by simp⟩

/-- Witness for C8's amended theorem at a fully configured environment with
an unset port (default `"25"`) and a working transport. -/
theorem send_email_no_raise_witness :
    pyInt ((⟨some "smtp.example.com", none, some "qa@example.com",
        some " dev@example.com, qa2@example.com ,"⟩ : SmtpEnv).smtp_port.getD "25") = some 25
  ∧ ∃ out, send_email initState
      ⟨some "smtp.example.com", none, some "qa@example.com",
        some " dev@example.com, qa2@example.com ,"⟩
      true (.ok ()) (.ok ()) (.ok ()) (.ok ()) = .ok out :=
  ⟨by decide,
   (send_email_no_raise_given_intlike_port initState
     ⟨some "smtp.example.com", none, some "qa@example.com",
       some " dev@example.com, qa2@example.com ,"⟩
     true (.ok ()) (.ok ()) (.ok ()) (.ok ()) 25 (by decide)).1⟩

/-- C8 counterexample: with `SMTP_PORT` set to a non-integer string, the
`int(os.getenv("SMTP_PORT", "25"))` at line 309 runs before the
configuration guard and raises `ValueError` out of `send_email`, even though
host, sender and recipients are all configured and the transport would
succeed — so "dispatch never raises into its caller" is false as stated. -/
theorem send_email_raises_on_malformed_port :
    send_email initState
      ⟨some "smtp.example.com", some "abc", some "qa@example.com", some "dev@example.com"⟩
      false (.ok ()) (.ok ()) (.ok ()) (.ok ())
      = .error "ValueError: invalid literal for int() with base 10" := by
  rfl

end EmailReporter
